import Mathlib

/-!
# Apartment register chaincode (`src/main.go`)

A shallow embedding of the chaincode in `src/main.go` and theorems about it.

* Go strings are Lean strings, byte slices holding JSON text are Lean strings
  (`nil` and the empty slice are both `""`).
* The package-level variable `blocks` and the ledger behind the stub are passed
  explicitly; an operation that writes returns the new values.
* A run-time panic (assignment into a nil map, index out of range) is `none`.
* `time.Now()` is an argument of the operations that call it.
-/

namespace ApartmentRegister

/-! ## `fmt.Sprintf` verbs used by the chaincode -/

/-- Verb `%d` applied to an operand of type `string`. `fmt` does not format a
string with `%d`; it prints the bad-verb report `%!d(string=VALUE)`. -/
def fmtDString (s : String) : String := "%!d(string=" ++ s ++ ")"

/-- Verb `%d` applied to an `int` (here always a length, so a natural number). -/
def fmtDInt (n : Nat) : String := toString n

/-- Line 32-34: `fmt.Sprintf("%s%d", street, number)` with `number` a string. -/
def createId (street : String) (number : String) : String :=
  street ++ fmtDString number

/-! ## Data model (lines 15-27) -/

/-- Lines 15-19. `movedIn` is the instant read from the clock, as a number. -/
structure Renter where
  name : String
  surname : String
  movedIn : Nat
  deriving DecidableEq, Repr

/-- Lines 21-27. -/
structure Block where
  id : String
  street : String
  number : String
  renters : List Renter
  nOfRooms : String
  deriving DecidableEq, Repr

/-- The zero value of `Block` (`var block Block`, `new(Block)`). -/
def Block.zero : Block := ⟨"", "", "", [], ""⟩

/-- The zero value of `Renter`. -/
def Renter.zero : Renter := ⟨"", "", 0⟩

/-! ## `encoding/json` -/

/-- Go exports an identifier when its first character is an upper-case letter.
`encoding/json` reads and writes exported struct fields only. -/
def isExported (fieldName : String) : Bool :=
  match fieldName.data with
  | [] => false
  | c :: _ => c.isUpper

/-- Field names of `Renter` as declared on lines 16-18. -/
def renterFieldNames : List String := ["name", "surname", "movedIn"]

/-- Field names of `Block` as declared on lines 22-26. -/
def blockFieldNames : List String := ["id", "street", "number", "renters", "nOfRooms"]

/-- The text `json.Marshal` produces for a struct value none of whose fields is
exported: the empty object. Both structs of the chaincode are of this kind
(`isExported` is false on every name of `renterFieldNames` and
`blockFieldNames`), so the field values never reach the output and the call
never fails. -/
def jsonEmptyObject : String := "\x7b\x7d"

/-- `json.Marshal(*block)` (lines 46, 91, 147). -/
def jsonMarshalBlock (_block : Block) : String := jsonEmptyObject

/-- `json.Marshal(*renter)` (line 66). -/
def jsonMarshalRenter (_renter : Renter) : String := jsonEmptyObject

/-- States of the scanner of `encoding/json` (`scanner.go`), one per step
function. -/
inductive ScanState where
  | beginValue | beginValueOrEmpty | beginStringOrEmpty | beginString
  | endValue | endTop
  | inString | inStringEsc | inStringEscU | inStringEscU1 | inStringEscU12 | inStringEscU123
  | neg | s1 | s0 | dot | dot0 | e | eSign | e0
  | t | tr | tru | f | fa | fal | fals | n | nu | nul
  deriving DecidableEq, Repr

/-- What the scanner is in the middle of: the entries of its parse stack. -/
inductive ParseState where
  | objectKey | objectValue | arrayValue
  deriving DecidableEq, Repr

/-- Scanner `isSpace`. -/
def jsonIsSpace (c : Char) : Bool :=
  c = ' ' || c = '\t' || c = '\r' || c = '\n'

/-- Hexadecimal digit test of the `\u` escape states. -/
def jsonIsHex (c : Char) : Bool :=
  ('0' ≤ c && c ≤ '9') || ('a' ≤ c && c ≤ 'f') || ('A' ≤ c && c ≤ 'F')

/-- Scanner `stateEndTop`: only white space may follow the top-level value. -/
def stepEndTop (ps : List ParseState) (c : Char) : Option (ScanState × List ParseState) :=
  if jsonIsSpace c then some (ScanState.endTop, ps) else none

/-- Scanner `popParseState`. -/
def popParseState (ps : List ParseState) : ScanState × List ParseState :=
  match ps.tail with
  | [] => (ScanState.endTop, [])
  | rest => (ScanState.endValue, rest)

/-- Scanner `stateEndValue`: the byte after a complete value. The head of the
list is the top of the parse stack. -/
def stepEndValue (ps : List ParseState) (c : Char) : Option (ScanState × List ParseState) :=
  match ps with
  | [] => stepEndTop [] c
  | top :: rest =>
    if jsonIsSpace c then some (ScanState.endValue, ps)
    else match top with
      | ParseState.objectKey =>
        if c = ':' then some (ScanState.beginValue, ParseState.objectValue :: rest) else none
      | ParseState.objectValue =>
        if c = ',' then some (ScanState.beginString, ParseState.objectKey :: rest)
        else if c = '\x7d' then some (popParseState ps)
        else none
      | ParseState.arrayValue =>
        if c = ',' then some (ScanState.beginValue, ps)
        else if c = ']' then some (popParseState ps)
        else none

/-- Scanner `stateBeginValue`. -/
def stepBeginValue (ps : List ParseState) (c : Char) : Option (ScanState × List ParseState) :=
  if jsonIsSpace c then some (ScanState.beginValue, ps)
  else if c = '\x7b' then some (ScanState.beginStringOrEmpty, ParseState.objectKey :: ps)
  else if c = '[' then some (ScanState.beginValueOrEmpty, ParseState.arrayValue :: ps)
  else if c = '\x22' then some (ScanState.inString, ps)
  else if c = '-' then some (ScanState.neg, ps)
  else if c = '0' then some (ScanState.s0, ps)
  else if c = 't' then some (ScanState.t, ps)
  else if c = 'f' then some (ScanState.f, ps)
  else if c = 'n' then some (ScanState.n, ps)
  else if '1' ≤ c && c ≤ '9' then some (ScanState.s1, ps)
  else none

/-- Scanner `stateBeginString`. -/
def stepBeginString (ps : List ParseState) (c : Char) : Option (ScanState × List ParseState) :=
  if jsonIsSpace c then some (ScanState.beginString, ps)
  else if c = '\x22' then some (ScanState.inString, ps)
  else none

/-- Scanner `state0`: after the integer part of a number. -/
def step0 (ps : List ParseState) (c : Char) : Option (ScanState × List ParseState) :=
  if c = '.' then some (ScanState.dot, ps)
  else if c = 'e' || c = 'E' then some (ScanState.e, ps)
  else stepEndValue ps c

/-- Scanner `stateESign`. -/
def stepESign (ps : List ParseState) (c : Char) : Option (ScanState × List ParseState) :=
  if '0' ≤ c && c ≤ '9' then some (ScanState.e0, ps) else none

/-- One literal letter: go to `next` when the byte is `want`. -/
def stepLetter (want : Char) (next : ScanState) (ps : List ParseState) (c : Char) :
    Option (ScanState × List ParseState) :=
  if c = want then some (next, ps) else none

/-- One byte through the scanner: the step function of state `st` applied to
`c`; `none` is `scanError`. -/
def scanStep (st : ScanState) (ps : List ParseState) (c : Char) :
    Option (ScanState × List ParseState) :=
  match st with
  | ScanState.beginValue => stepBeginValue ps c
  | ScanState.beginValueOrEmpty =>
    if jsonIsSpace c then some (ScanState.beginValueOrEmpty, ps)
    else if c = ']' then stepEndValue ps c
    else stepBeginValue ps c
  | ScanState.beginStringOrEmpty =>
    if jsonIsSpace c then some (ScanState.beginStringOrEmpty, ps)
    else if c = '\x7d' then stepEndValue (ParseState.objectValue :: ps.tail) c
    else stepBeginString ps c
  | ScanState.beginString => stepBeginString ps c
  | ScanState.endValue => stepEndValue ps c
  | ScanState.endTop => stepEndTop ps c
  | ScanState.inString =>
    if c = '\x22' then some (ScanState.endValue, ps)
    else if c = '\x5c' then some (ScanState.inStringEsc, ps)
    else if c.toNat < 0x20 then none
    else some (ScanState.inString, ps)
  | ScanState.inStringEsc =>
    if c = 'b' || c = 'f' || c = 'n' || c = 'r' || c = 't' || c = '\x5c' || c = '/' || c = '\x22'
    then some (ScanState.inString, ps)
    else if c = 'u' then some (ScanState.inStringEscU, ps)
    else none
  | ScanState.inStringEscU => if jsonIsHex c then some (ScanState.inStringEscU1, ps) else none
  | ScanState.inStringEscU1 => if jsonIsHex c then some (ScanState.inStringEscU12, ps) else none
  | ScanState.inStringEscU12 => if jsonIsHex c then some (ScanState.inStringEscU123, ps) else none
  | ScanState.inStringEscU123 => if jsonIsHex c then some (ScanState.inString, ps) else none
  | ScanState.neg =>
    if c = '0' then some (ScanState.s0, ps)
    else if '1' ≤ c && c ≤ '9' then some (ScanState.s1, ps)
    else none
  | ScanState.s1 =>
    if '0' ≤ c && c ≤ '9' then some (ScanState.s1, ps) else step0 ps c
  | ScanState.s0 => step0 ps c
  | ScanState.dot => if '0' ≤ c && c ≤ '9' then some (ScanState.dot0, ps) else none
  | ScanState.dot0 =>
    if '0' ≤ c && c ≤ '9' then some (ScanState.dot0, ps)
    else if c = 'e' || c = 'E' then some (ScanState.e, ps)
    else stepEndValue ps c
  | ScanState.e =>
    if c = '+' || c = '-' then some (ScanState.eSign, ps) else stepESign ps c
  | ScanState.eSign => stepESign ps c
  | ScanState.e0 =>
    if '0' ≤ c && c ≤ '9' then some (ScanState.e0, ps) else stepEndValue ps c
  | ScanState.t => stepLetter 'r' ScanState.tr ps c
  | ScanState.tr => stepLetter 'u' ScanState.tru ps c
  | ScanState.tru => stepLetter 'e' ScanState.endValue ps c
  | ScanState.f => stepLetter 'a' ScanState.fa ps c
  | ScanState.fa => stepLetter 'l' ScanState.fal ps c
  | ScanState.fal => stepLetter 's' ScanState.fals ps c
  | ScanState.fals => stepLetter 'e' ScanState.endValue ps c
  | ScanState.n => stepLetter 'u' ScanState.nu ps c
  | ScanState.nu => stepLetter 'l' ScanState.nul ps c
  | ScanState.nul => stepLetter 'l' ScanState.endValue ps c

/-- Scanner `eof`: the input is complete when the top-level value has ended,
if need be after one more space (which ends a number). -/
def scanEof (st : ScanState) (ps : List ParseState) : Bool :=
  if st = ScanState.endTop then true
  else match scanStep st ps ' ' with
    | some (st2, _) => decide (st2 = ScanState.endTop)
    | none => false

/-- The loop of `checkValid` from state `st` over the remaining bytes. -/
def scanFrom (st : ScanState) (ps : List ParseState) : List Char → Bool
  | [] => scanEof st ps
  | c :: cs =>
    match scanStep st ps c with
    | some (st2, ps2) => scanFrom st2 ps2 cs
    | none => false

/-- `checkValid`: is `data` one well-formed JSON value? (The nesting limit of
later library versions is left out.) -/
def checkValid (data : String) : Bool :=
  scanFrom ScanState.beginValue [] data.data

/-- First byte of the top-level value: the first byte that is not white space. -/
def jsonFirstByte : List Char → Option Char
  | [] => none
  | c :: cs => if jsonIsSpace c then jsonFirstByte cs else some c

/-- Whether `json.Unmarshal(data, &v)` returns a nil error for `v` of a struct
type: `data` must pass `checkValid`, and its top-level value must be an object
or `null`; any other value is an `UnmarshalTypeError`. -/
def decodesIntoStruct (data : String) : Bool :=
  checkValid data &&
    (jsonFirstByte data.data = some '\x7b' || jsonFirstByte data.data = some 'n')

/-- `json.Unmarshal(data, &block)`: the block afterwards and whether the
returned error is non-nil. The decoder assigns object members to exported
fields only; `Block` has none, so the block is left as it was in every case. -/
def jsonUnmarshalBlock (data : String) (block : Block) : Block × Bool :=
  (block, !decodesIntoStruct data)

/-- Lower-case hexadecimal digit, as in the encoder table `hex`. -/
def jsonHex (n : Nat) : Char := "0123456789abcdef".data.getD n '0'

/-- How the encoder writes one character of a string (HTML escaping on, the
default of `json.Marshal`). -/
def jsonEscapeChar (c : Char) : List Char :=
  if c = '\x22' || c = '\x5c' then ['\x5c', c]
  else if c = '\n' then ['\x5c', 'n']
  else if c = '\r' then ['\x5c', 'r']
  else if c = '\t' then ['\x5c', 't']
  else if c.toNat < 0x20 || c = '<' || c = '>' || c = '&' then
    ['\x5c', 'u', '0', '0', jsonHex (c.toNat / 16), jsonHex (c.toNat % 16)]
  else if c.toNat = 0x2028 || c.toNat = 0x2029 then
    ['\x5c', 'u', '2', '0', '2', jsonHex (c.toNat % 16)]
  else [c]

/-- A Go string as a JSON string literal. -/
def jsonQuote (s : String) : String :=
  String.mk ('\x22' :: (s.data.flatMap jsonEscapeChar ++ ['\x22']))

/-- JSON text of a `bool`. -/
def jsonBool (b : Bool) : String := if b then "true" else "false"

/-- Byte-wise string order used to sort map keys (code point order and UTF-8
byte order agree). -/
def keyLt : List Char → List Char → Bool
  | [], [] => false
  | [], _ :: _ => true
  | _ :: _, [] => false
  | a :: as, b :: bs => a.toNat < b.toNat || (a = b && keyLt as bs)

/-- Insert one entry into a list sorted by key. -/
def insertSorted (kv : String × Bool) : List (String × Bool) → List (String × Bool)
  | [] => [kv]
  | x :: xs => if keyLt kv.1.data x.1.data then kv :: x :: xs else x :: insertSorted kv xs

/-- Entries sorted by key, the order in which the encoder writes a map. -/
def sortEntries (l : List (String × Bool)) : List (String × Bool) :=
  l.foldr insertSorted []

/-! ## The package-level map `blocks` (line 30) -/

/-- A non-nil `map[string]bool`: finitely many keys, each with one value. The
order of the entries stands for whatever order `range` picks. -/
abbrev GoMap := AList (fun _ : String => Bool)

/-- The variable `blocks`: `none` is the nil map it holds until `Init` runs. -/
abbrev Blocks := Option GoMap

/-- The expression `blocks[id]`: the stored value, `false` for a missing key
and for the nil map. -/
def Blocks.get (blocks : Blocks) (id : String) : Bool :=
  match blocks with
  | none => false
  | some m => (m.lookup id).getD false

/-- The expression `len(blocks)`. -/
def Blocks.len (blocks : Blocks) : Nat :=
  match blocks with
  | none => 0
  | some m => m.keys.length

/-- The keys `range blocks` runs over. -/
def Blocks.ids (blocks : Blocks) : List String :=
  match blocks with
  | none => []
  | some m => m.keys

/-- The statement `blocks[id] = v`. Assignment into the nil map panics. -/
def Blocks.set (blocks : Blocks) (id : String) (v : Bool) : Option Blocks :=
  match blocks with
  | none => none
  | some m => some (some (m.insert id v))

/-- `json.Marshal(blocks)` (line 116): an object with the keys in sorted order;
`null` for the nil map. -/
def jsonMarshalBlocks (blocks : Blocks) : String :=
  match blocks with
  | none => "null"
  | some m =>
    "\x7b" ++ ",".intercalate
      ((sortEntries (m.entries.map fun e => (e.1, e.2))).map
        fun kv => jsonQuote kv.1 ++ ":" ++ jsonBool kv.2) ++ "\x7d"

/-! ## The ledger behind `shim.ChaincodeStubInterface` -/

/-- The ledger as the chaincode sees it through the stub: the value stored under
each key, and the keys on which the ledger refuses a write (`PutState` returns
an error and stores nothing). -/
structure Stub where
  state : AList (fun _ : String => String)
  refused : List String

/-- `stub.GetState(key)`: the stored bytes, nil (here `""`) when there are
none. The error result is not modelled apart: the chaincode overwrites or
drops it at each call (lines 39-40, 96). -/
def Stub.GetState (stub : Stub) (key : String) : String :=
  (stub.state.lookup key).getD ""

/-- `stub.PutState(key, value)`: the ledger afterwards and whether the
returned error is non-nil. -/
def Stub.PutState (stub : Stub) (key : String) (value : String) : Stub × Bool :=
  if key ∈ stub.refused then (stub, true)
  else (⟨stub.state.insert key value, stub.refused⟩, false)

/-- `peer.Response` as built by `shim.Success` and `shim.Error`. -/
inductive Response where
  | Success (payload : String)
  | Error (message : String)
  deriving DecidableEq, Repr

/-! ## Block repository (lines 36-48) -/

/-- Lines 37-42. The error of `GetState` is overwritten by that of
`json.Unmarshal`; the pointer returned is never nil. -/
def getBlock (stub : Stub) (key : String) : Block × Bool :=
  jsonUnmarshalBlock (stub.GetState key) Block.zero

/-- Lines 45-48. -/
def putBlock (stub : Stub) (key : String) (block : Block) : Stub × Bool :=
  stub.PutState key (jsonMarshalBlock block)

/-! ## Operations (lines 50-161) -/

/-- The loop of lines 57-62 with its variables made explicit: `r` is the loop
variable, `found` says whether `renter` has been set. `renter = &r` stores the
address of the loop variable itself (one variable for the whole loop in the Go
this chaincode was written for), so a non-nil `renter` always points at the
current value of `r`. -/
def scanRenters (name : String) : Renter × Bool → List Renter → Renter × Bool
  | acc, [] => acc
  | (_, found), x :: xs => scanRenters name (x, found || (x.name == name)) xs

/-- The pointer `renter` after the loop: nil (`none`) or the value it points at. -/
def findRenter (name : String) (renters : List Renter) : Option Renter :=
  match scanRenters name (Renter.zero, false) renters with
  | (r, true) => some r
  | (_, false) => none

/-- Lines 51-69. Reads only. -/
def queryRenter (blocks : Blocks) (stub : Stub) (street number name : String) : Response :=
  let id := createId street number
  if !blocks.get id then
    Response.Error ("No block " ++ id ++ " registered")
  else
    let block := (getBlock stub id).1
    match findRenter name block.renters with
    | none => Response.Error ("Could not find renter " ++ name ++ " in block " ++ id)
    | some renter => Response.Success (jsonMarshalRenter renter)

/-- Lines 72-99. `now` is the value of `time.Now()`. Returns the response and
the ledger afterwards; `blocks` is only read. -/
def registerNewRenter (blocks : Blocks) (stub : Stub) (now : Nat)
    (street number name surname : String) : Response × Stub :=
  let id := createId street number
  if !blocks.get id then
    (Response.Error ("No block " ++ id ++ " registered"), stub)
  else
    let (block, err) := getBlock stub id
    if err then
      (Response.Error ("could not retrieve " ++ id), stub)
    else
      let renter : Renter := ⟨name, surname, now⟩
      let block : Block := { block with renters := block.renters ++ [renter] }
      let block_marshalled := jsonMarshalBlock block
      let (stub, err) := stub.PutState id block_marshalled
      if err then
        (Response.Error ("could not update " ++ id), stub)
      else
        let block_marshalled := stub.GetState id
        let block := (jsonUnmarshalBlock block_marshalled block).1
        (Response.Success
          ("Block " ++ id ++ " has now " ++ fmtDInt block.renters.length ++ " renters"), stub)

/-- Lines 102-120. Returns the response, `blocks` and the ledger afterwards;
`none` when the assignment on line 107 panics. The results of `putBlock`
(line 114) and of `PutState` (line 117) are dropped. -/
def newBlock (blocks : Blocks) (stub : Stub) (street number nOfRooms : String) :
    Option (Response × Blocks × Stub) :=
  let id := createId street number
  if blocks.get id then
    some (Response.Error ("Block " ++ id ++ " already exists"), blocks, stub)
  else
    match blocks.set id true with
    | none => none
    | some blocks =>
      let block : Block :=
        { Block.zero with id := id, street := street, number := number, nOfRooms := nOfRooms }
      let stub := (putBlock stub id block).1
      let blocks_marshalled := jsonMarshalBlocks blocks
      let stub := (stub.PutState "blocksIdCache" blocks_marshalled).1
      some (Response.Success ("Successfully created block " ++ id ++ "."), blocks, stub)

/-- Lines 123-126. -/
def blocksCount (blocks : Blocks) : Response :=
  let count := blocks.len
  Response.Success (fmtDInt count ++ " blocks found")

/-- Lines 129-137. -/
def rentersCount (stub : Stub) (street number : String) : Response :=
  let id := createId street number
  let (block, err) := getBlock stub id
  if err then
    Response.Error ("could not retrieve " ++ street ++ " " ++ fmtDString number)
  else
    Response.Success (fmtDInt block.renters.length ++ " renters in " ++ block.id ++ " found")

/-- The loop of lines 141-153 over the ids in the order `range` yields them.
The value built by `shim.Error` on line 144 is dropped and the loop body goes
on with the block `getBlock` returned; `json.Marshal` on line 147 cannot fail. -/
def findEmptyBlockFrom (stub : Stub) : List String → Response
  | [] => Response.Error "No blocks empty"
  | id :: rest =>
    let block := (getBlock stub id).1
    if block.renters.length = 0 then Response.Success (jsonMarshalBlock block)
    else findEmptyBlockFrom stub rest

/-- Lines 140-155. -/
def findEmptyBlock (blocks : Blocks) (stub : Stub) : Response :=
  findEmptyBlockFrom stub blocks.ids

/-- Lines 158-161: `blocks = make(map[string]bool)`. The ledger is not read. -/
def Init (_blocks : Blocks) (stub : Stub) : Response × Blocks × Stub :=
  (Response.Success "Successfully initialized Chaincode.", some ∅, stub)

/-- Lines 164-194. `function` and `para` are the results of
`stub.GetFunctionAndParameters()`. An index expression `para[i]` with
`i ≥ len(para)` panics (`none`). -/
def Invoke (blocks : Blocks) (stub : Stub) (now : Nat) (function : String)
    (para : List String) : Option (Response × Blocks × Stub) :=
  if function = "queryRenter" then
    if para.length < 3 then
      some (Response.Error "not enough arguments for queryRenter. 3 required", blocks, stub)
    else do
      let p0 ← para[0]?
      let p1 ← para[1]?
      let p2 ← para[2]?
      some (queryRenter blocks stub p0 p1 p2, blocks, stub)
  else if function = "registerRenter" then
    if para.length < 3 then
      some (Response.Error "not enough arguments for registerRenter. 4 required", blocks, stub)
    else do
      let p0 ← para[0]?
      let p1 ← para[1]?
      let p2 ← para[2]?
      let p3 ← para[3]?
      let (resp, stub) := registerNewRenter blocks stub now p0 p1 p2 p3
      some (resp, blocks, stub)
  else if function = "newBlock" then do
    let p0 ← para[0]?
    let p1 ← para[1]?
    let p2 ← para[2]?
    newBlock blocks stub p0 p1 p2
  else if function = "blocksCount" then
    some (blocksCount blocks, blocks, stub)
  else if function = "rentersCount" then
    if para.length < 2 then
      some (Response.Error "not enough arguments for rentersCount. 2 required", blocks, stub)
    else do
      let p0 ← para[0]?
      let p1 ← para[1]?
      some (rentersCount stub p0 p1, blocks, stub)
  else if function = "findEmptyBlock" then
    some (findEmptyBlock blocks stub, blocks, stub)
  else
    some (Response.Error ("No function " ++ function ++ " implemented"), blocks, stub)

/-- A sequence of transactions: each `Invoke` runs on what the one before left.
Every entry gives the clock reading, the function name and the parameters. The
result lists the responses in order; it is `none` when a call panics. -/
def invokeAll : Blocks → Stub → List (Nat × String × List String) →
    Option (List Response × Blocks × Stub)
  | blocks, stub, [] => some ([], blocks, stub)
  | blocks, stub, (now, function, para) :: rest =>
    match Invoke blocks stub now function para with
    | none => none
    | some (resp, blocks2, stub2) =>
      (invokeAll blocks2 stub2 rest).map fun out => (resp :: out.1, out.2)

/-- The ledger with no key stored and no write refused. -/
def Stub.empty : Stub := ⟨∅, []⟩

/-- Whether a block record is stored under `key`: some bytes are stored under
it, and it is not the reserved key, which holds the index record. -/
def hasBlockRecord (stub : Stub) (key : String) : Bool :=
  key != "blocksIdCache" && (stub.state.lookup key).isSome

/-- What the invariant of index and ledger says of one state: the ledger
refuses no write, and `blocks` marks exactly the keys under which a block
record is stored. -/
def Consistent (blocks : Blocks) (stub : Stub) : Prop :=
  stub.refused = [] ∧ ∀ key : String, blocks.get key = true ↔ hasBlockRecord stub key = true

/-! ## Facts about the model of `encoding/json` -/

/-- No field of `Renter` or `Block` is exported. -/
theorem no_exported_field :
    renterFieldNames.filter isExported = [] ∧ blockFieldNames.filter isExported = [] := by
  decide

/-- The text written for a block decodes without error; no bytes do not. -/
theorem decodesIntoStruct_basic :
    decodesIntoStruct jsonEmptyObject = true ∧ decodesIntoStruct "" = false := by
  decide

/-- Every block `getBlock` returns is the zero block, whatever the ledger
holds: the decoder has no field to assign. -/
theorem getBlock_block (stub : Stub) (key : String) : (getBlock stub key).1 = Block.zero :=
  rfl

/-- What `putBlock` hands to the ledger does not depend on the block. -/
theorem putBlock_eq (stub : Stub) (key : String) (block : Block) :
    putBlock stub key block = stub.PutState key jsonEmptyObject :=
  rfl

/-! ## Identifier codec -/

/-- Two lists that agree after splitting each at an element which does not occur
before the split point are split alike. -/
theorem append_cons_inj_left {α : Type} {a : α} :
    ∀ {l1 l2 r1 r2 : List α}, a ∉ l1 → a ∉ l2 → l1 ++ a :: r1 = l2 ++ a :: r2 →
      l1 = l2 ∧ r1 = r2
  | [], [], _, _, _, _, h => by simpa using h
  | [], y :: l2, _, _, _, h2, h => by
    simp at h
    exact absurd h.1 (by intro e; exact h2 (by simp [e]))
  | x :: l1, [], _, _, h1, _, h => by
    simp at h
    exact absurd h.1 (by intro e; exact h1 (by simp [e]))
  | x :: l1, y :: l2, r1, r2, h1, h2, h => by
    simp only [List.cons_append, List.cons.injEq] at h
    have ih := @append_cons_inj_left α a l1 l2 r1 r2
      (fun hm => h1 (List.mem_cons_of_mem _ hm)) (fun hm => h2 (List.mem_cons_of_mem _ hm)) h.2
    exact ⟨by rw [h.1, ih.1], ih.2⟩

/-- The same when the element does not occur after the split point. -/
theorem append_cons_inj_right {α : Type} {a : α} {l1 l2 r1 r2 : List α}
    (h1 : a ∉ r1) (h2 : a ∉ r2) (h : l1 ++ a :: r1 = l2 ++ a :: r2) :
    l1 = l2 ∧ r1 = r2 := by
  have h3 := congrArg List.reverse h
  simp only [List.reverse_append, List.reverse_cons, List.append_assoc,
    List.singleton_append] at h3
  have h4 := append_cons_inj_left (by simpa using h1) (by simpa using h2) h3
  exact ⟨List.reverse_injective h4.2, List.reverse_injective h4.1⟩

/-- The characters of an id: the street, the report of the bad verb around the
number. -/
theorem createId_data (street number : String) :
    (createId street number).data =
      street.data ++ '%' :: ("!d(string=".data ++ (number.data ++ [')'])) := by
  simp [createId, fmtDString, String.data_append]

/-- C1, as stated, fails: two different (street, number) pairs with the same
id. The text `fmt` puts between street and number may itself occur in a street
or in a number. -/
theorem createId_collision :
    (("A%!d(string=B", "C") : String × String) ≠ ("A", "B%!d(string=C") ∧
      createId "A%!d(string=B" "C" = createId "A" "B%!d(string=C" := by
  decide

/-- C1, amended: `createId` gives different ids to different (street, number)
pairs whenever the character `%` occurs in neither street or in neither
number. -/
theorem createId_injective_without_percent (street1 number1 street2 number2 : String)
    (h : ('%' ∉ street1.data ∧ '%' ∉ street2.data) ∨
      ('%' ∉ number1.data ∧ '%' ∉ number2.data))
    (hne : (street1, number1) ≠ (street2, number2)) :
    createId street1 number1 ≠ createId street2 number2 := by
  intro heq
  have hd := congrArg String.data heq
  rw [createId_data, createId_data] at hd
  have key : street1.data = street2.data ∧ number1.data = number2.data := by
    rcases h with ⟨h1, h2⟩ | ⟨h1, h2⟩
    · have hs := append_cons_inj_left h1 h2 hd
      exact ⟨hs.1, List.append_cancel_right (List.append_cancel_left hs.2)⟩
    · have hs := @append_cons_inj_right Char '%' street1.data street2.data
        ("!d(string=".data ++ (number1.data ++ [')']))
        ("!d(string=".data ++ (number2.data ++ [')']))
        (by simp [h1]) (by simp [h2]) hd
      exact ⟨hs.1, List.append_cancel_right (List.append_cancel_left hs.2)⟩
  apply hne
  have e1 : street1 = street2 := String.ext key.1
  have e2 : number1 = number2 := String.ext key.2
  rw [e1, e2]

/-- The pairs of the claim, street "A1" with number "2" and street "A" with
number "12", get different ids. -/
theorem createId_injective_without_percent_witness :
    (('%' ∉ "A1".data ∧ '%' ∉ "A".data) ∨ ('%' ∉ "2".data ∧ '%' ∉ "12".data)) ∧
      (("A1", "2") : String × String) ≠ ("A", "12") ∧
      createId "A1" "2" ≠ createId "A" "12" :=
  ⟨by decide, by decide,
    createId_injective_without_percent "A1" "2" "A" "12" (by decide) (by decide)⟩

/-! ## `newBlock` -/

/-- C2: when the derived id is already marked in `blocks`, `newBlock` returns the
error "Block ... already exists", and `blocks` and the ledger come back as
they were. -/
theorem newBlock_existing (blocks : Blocks) (stub : Stub) (street number nOfRooms : String)
    (h : blocks.get (createId street number) = true) :
    newBlock blocks stub street number nOfRooms =
      some (Response.Error ("Block " ++ createId street number ++ " already exists"),
        blocks, stub) := by
  simp [newBlock, h]

/-- A second `newBlock("Elm St", "12", "4")` is refused. -/
theorem newBlock_existing_witness :
    Blocks.get (some ((∅ : GoMap).insert "Elm St%!d(string=12)" true))
        (createId "Elm St" "12") = true ∧
      newBlock (some ((∅ : GoMap).insert "Elm St%!d(string=12)" true)) Stub.empty
          "Elm St" "12" "4" =
        some (Response.Error ("Block " ++ createId "Elm St" "12" ++ " already exists"),
          some ((∅ : GoMap).insert "Elm St%!d(string=12)" true), Stub.empty) :=
  ⟨by decide, newBlock_existing _ _ "Elm St" "12" "4" (by decide)⟩

/-- A key that `blocks` does not hold reads as `false`. -/
theorem Blocks.get_of_not_mem (blocks : Blocks) (id : String) (h : id ∉ blocks.ids) :
    blocks.get id = false := by
  cases blocks with
  | none => rfl
  | some m =>
    have hl : m.lookup id = none := AList.lookup_eq_none.mpr (by simpa [Blocks.ids] using h)
    simp [Blocks.get, hl]

/-- Assigning under a new key makes the map one longer. -/
theorem Blocks.len_insert_new (m : GoMap) (id : String) (v : Bool) (h : id ∉ m.keys) :
    Blocks.len (some (m.insert id v)) = Blocks.len (some m) + 1 := by
  simp [Blocks.len, AList.keys_insert, List.erase_of_not_mem h]

/-- C3: when the derived id is not a key of `blocks`, `newBlock` succeeds on
every map `Init` has made, and after every successful `newBlock` the count that
`blocksCount` reports is one more than the count it reported before. -/
theorem newBlock_count (blocks : Blocks) (stub : Stub) (street number nOfRooms : String)
    (hnew : createId street number ∉ blocks.ids) :
    (blocks ≠ none → ∃ payload blocks2 stub2,
        newBlock blocks stub street number nOfRooms =
          some (Response.Success payload, blocks2, stub2)) ∧
      ∀ payload blocks2 stub2,
        newBlock blocks stub street number nOfRooms =
          some (Response.Success payload, blocks2, stub2) →
        ∃ n : Nat, blocksCount blocks = Response.Success (fmtDInt n ++ " blocks found") ∧
          blocksCount blocks2 = Response.Success (fmtDInt (n + 1) ++ " blocks found") := by
  have hget := Blocks.get_of_not_mem blocks _ hnew
  cases blocks with
  | none =>
    refine ⟨fun h => absurd rfl h, ?_⟩
    intro payload blocks2 stub2 h
    simp [newBlock, hget, Blocks.set] at h
  | some m =>
    have hk : createId street number ∉ m.keys := by simpa [Blocks.ids] using hnew
    refine ⟨fun _ => ?_, ?_⟩
    · simp [newBlock, hget, Blocks.set]
    · intro payload blocks2 stub2 h
      simp only [newBlock, hget, Blocks.set] at h
      simp at h
      obtain ⟨_, hb, _⟩ := h
      refine ⟨Blocks.len (some m), rfl, ?_⟩
      rw [← hb, ← Blocks.len_insert_new m _ true hk]
      rfl

/-- The first `newBlock("Elm St", "12", "4")` after `Init`. -/
theorem newBlock_count_witness :
    createId "Elm St" "12" ∉ Blocks.ids (some ∅) ∧
      ((some (∅ : GoMap) ≠ none → ∃ payload blocks2 stub2,
        newBlock (some ∅) Stub.empty "Elm St" "12" "4" =
          some (Response.Success payload, blocks2, stub2)) ∧
      ∀ payload blocks2 stub2,
        newBlock (some ∅) Stub.empty "Elm St" "12" "4" =
          some (Response.Success payload, blocks2, stub2) →
        ∃ n : Nat, blocksCount (some ∅) = Response.Success (fmtDInt n ++ " blocks found") ∧
          blocksCount blocks2 = Response.Success (fmtDInt (n + 1) ++ " blocks found")) :=
  ⟨by decide, newBlock_count (some ∅) Stub.empty "Elm St" "12" "4" (by decide)⟩

/-! ## Renters

`registerNewRenter` appends the renter to a block in memory and stores the block
through `json.Marshal`, which writes none of its fields. The record on the
ledger is the empty object after every write, and every block read back has the
zero value in every field. -/

/-- On every state, a query on an indexed block finds no renter: the block
loaded has none. -/
theorem queryRenter_indexed (blocks : Blocks) (stub : Stub) (street number name : String)
    (h : blocks.get (createId street number) = true) :
    queryRenter blocks stub street number name =
      Response.Error
        ("Could not find renter " ++ name ++ " in block " ++ createId street number) := by
  simp [queryRenter, h, getBlock_block, Block.zero, findRenter, scanRenters]

/-- On every ledger, the scan for an empty block stops at the first id. -/
theorem findEmptyBlockFrom_cons (stub : Stub) (id : String) (rest : List String) :
    findEmptyBlockFrom stub (id :: rest) = Response.Success jsonEmptyObject := by
  simp [findEmptyBlockFrom, getBlock_block, Block.zero, jsonMarshalBlock]

/-- C4 evaluated: after `newBlock` and two registrations of renters named "Ana"
(Lopez, then Diaz) in the same block, `queryRenter` for "Ana" returns the error
"Could not find renter ..." and no renter; the second registration again
reports one renter. The loop of `queryRenter` on a sequence holding both
renters stops with the later one, Diaz, not the first. -/
theorem queryRenter_duplicate_name :
    (invokeAll (some ∅) Stub.empty
        [(0, "newBlock", ["Elm St", "12", "4"]),
         (10, "registerRenter", ["Elm St", "12", "Ana", "Lopez"]),
         (20, "registerRenter", ["Elm St", "12", "Ana", "Diaz"]),
         (30, "queryRenter", ["Elm St", "12", "Ana"])]).map (fun out => out.1) =
      some [Response.Success "Successfully created block Elm St%!d(string=12).",
        Response.Success "Block Elm St%!d(string=12) has now 1 renters",
        Response.Success "Block Elm St%!d(string=12) has now 1 renters",
        Response.Error "Could not find renter Ana in block Elm St%!d(string=12)"] ∧
      findRenter "Ana" [⟨"Ana", "Lopez", 10⟩, ⟨"Ana", "Diaz", 20⟩] =
        some ⟨"Ana", "Diaz", 20⟩ := by
  decide

/-- C5 evaluated: `newBlock("Elm St", "12", "4")`, then a successful
`registerRenter` of Ana Lopez, then `queryRenter` for "Ana" at once: the query
fails with "Could not find renter Ana ...". -/
theorem queryRenter_after_register :
    (invokeAll (some ∅) Stub.empty
        [(0, "newBlock", ["Elm St", "12", "4"]),
         (10, "registerRenter", ["Elm St", "12", "Ana", "Lopez"]),
         (10, "queryRenter", ["Elm St", "12", "Ana"])]).map (fun out => out.1) =
      some [Response.Success "Successfully created block Elm St%!d(string=12).",
        Response.Success "Block Elm St%!d(string=12) has now 1 renters",
        Response.Error "Could not find renter Ana in block Elm St%!d(string=12)"] := by
  decide

/-- C6 evaluated, N = 1: after `newBlock` and one successful `registerRenter` on
the block, `rentersCount` reports 0 renters (and an empty block id), and the
block read back from the ledger has no renter. -/
theorem rentersCount_after_register :
    (invokeAll (some ∅) Stub.empty
        [(0, "newBlock", ["Elm St", "12", "4"]),
         (10, "registerRenter", ["Elm St", "12", "Ana", "Lopez"]),
         (20, "rentersCount", ["Elm St", "12"])]).map
        (fun out => (out.1, (getBlock out.2.2 (createId "Elm St" "12")).1.renters)) =
      some ([Response.Success "Successfully created block Elm St%!d(string=12).",
        Response.Success "Block Elm St%!d(string=12) has now 1 renters",
        Response.Success "0 renters in  found"], []) := by
  decide

/-! ## Dispatcher -/

/-- C7 evaluated: `registerRenter` with three parameters passes the length
check on line 175 (`len(para) < 3`) and panics at `para[3]`; `newBlock` has no
length check and panics at `para[2]` with two parameters and at `para[0]` with
none. -/
theorem Invoke_short_argument_list :
    Invoke (some ∅) Stub.empty 0 "registerRenter" ["Elm St", "12", "Ana"] = none ∧
      Invoke (some ∅) Stub.empty 0 "newBlock" ["Elm St", "12"] = none ∧
      Invoke (some ∅) Stub.empty 0 "newBlock" [] = none := by
  refine ⟨rfl, rfl, rfl⟩

/-! ## `findEmptyBlock` -/

/-- C8 evaluated: the index holds one block, and a renter has been registered
in it; `findEmptyBlock` succeeds (payload: the empty object) where the claim
has it fail with "No blocks empty". -/
theorem findEmptyBlock_after_register :
    (invokeAll (some ∅) Stub.empty
        [(0, "newBlock", ["Elm St", "12", "4"]),
         (10, "registerRenter", ["Elm St", "12", "Ana", "Lopez"]),
         (20, "findEmptyBlock", [])]).map (fun out => out.1) =
      some [Response.Success "Successfully created block Elm St%!d(string=12).",
        Response.Success "Block Elm St%!d(string=12) has now 1 renters",
        Response.Success jsonEmptyObject] := by
  decide

/-- C9 evaluated: the ledger refuses the write of the block record, so the id
is indexed and no record is stored under it (`GetState` gives no bytes and
`getBlock` an error); `findEmptyBlock` returns success for that id, not
"No blocks empty". -/
theorem findEmptyBlock_missing_record :
    (invokeAll (some ∅) ⟨∅, ["Elm St%!d(string=12)"]⟩
        [(0, "newBlock", ["Elm St", "12", "4"]),
         (10, "findEmptyBlock", [])]).map
        (fun out => (out.1, out.2.1.ids, out.2.2.GetState "Elm St%!d(string=12)",
          (getBlock out.2.2 "Elm St%!d(string=12)").2)) =
      some ([Response.Success "Successfully created block Elm St%!d(string=12).",
        Response.Success jsonEmptyObject], ["Elm St%!d(string=12)"], "", true) := by
  decide

/-- C10 evaluated: on a ledger that refuses the write of the block record,
`newBlock` returns success, the id is marked in `blocks`, and nothing is stored
under the id. -/
theorem newBlock_refused_write :
    (newBlock (some ∅) ⟨∅, [createId "Elm St" "12"]⟩ "Elm St" "12" "4").map
        (fun out => (out.1, out.2.1.get (createId "Elm St" "12"),
          out.2.2.state.lookup (createId "Elm St" "12"))) =
      some (Response.Success "Successfully created block Elm St%!d(string=12).",
        true, none) := by
  decide

/-! ## The index record -/

/-- C11 evaluated: on a ledger that refuses the write under "blocksIdCache",
`newBlock` returns success and marks the id, while no index record is stored;
the text of the index in memory is not what the ledger holds. -/
theorem newBlock_refused_index_write :
    (newBlock (some ∅) ⟨∅, ["blocksIdCache"]⟩ "Elm St" "12" "4").map
        (fun out => (out.1, out.2.1.get (createId "Elm St" "12"),
          out.2.2.state.lookup "blocksIdCache", jsonMarshalBlocks out.2.1)) =
      some (Response.Success "Successfully created block Elm St%!d(string=12).",
        true, none, "\x7b\x22Elm St%!d(string=12)\x22:true\x7d") := by
  decide

/-! ## Block repository -/

/-- C14 evaluated: `putBlock` of a block with id, street, number, rooms and one
renter succeeds, and `getBlock` on the resulting ledger succeeds as well, but
returns the zero block, which is not the block that was put. -/
theorem putBlock_getBlock_loses_fields :
    (putBlock Stub.empty "Elm St%!d(string=12)"
        ⟨"Elm St%!d(string=12)", "Elm St", "12", [⟨"Ana", "Lopez", 10⟩], "4"⟩).2 = false ∧
      getBlock (putBlock Stub.empty "Elm St%!d(string=12)"
        ⟨"Elm St%!d(string=12)", "Elm St", "12", [⟨"Ana", "Lopez", 10⟩], "4"⟩).1
        "Elm St%!d(string=12)" = (Block.zero, false) ∧
      Block.zero ≠
        (⟨"Elm St%!d(string=12)", "Elm St", "12", [⟨"Ana", "Lopez", 10⟩], "4"⟩ : Block) := by
  decide

/-! ## `registerNewRenter`, `rentersCount` -/

/-- C15: when the derived id is not marked in `blocks`, `registerNewRenter`
returns the error "No block ... registered" and the ledger it was given, without
a write; through `Invoke`, `blocks` and the ledger come back as they were. -/
theorem registerNewRenter_unknown_block (blocks : Blocks) (stub : Stub) (now : Nat)
    (street number name surname : String)
    (h : blocks.get (createId street number) = false) :
    registerNewRenter blocks stub now street number name surname =
        (Response.Error ("No block " ++ createId street number ++ " registered"), stub) ∧
      Invoke blocks stub now "registerRenter" [street, number, name, surname] =
        some (Response.Error ("No block " ++ createId street number ++ " registered"),
          blocks, stub) := by
  have h1 : registerNewRenter blocks stub now street number name surname =
      (Response.Error ("No block " ++ createId street number ++ " registered"), stub) := by
    simp [registerNewRenter, h]
  refine ⟨h1, ?_⟩
  simp [Invoke, h1]

/-- A registration in a block that was never created, on a ledger that already
holds another record. -/
theorem registerNewRenter_unknown_block_witness :
    Blocks.get (some ∅) (createId "Elm St" "12") = false ∧
      (registerNewRenter (some ∅) ⟨(∅ : AList fun _ : String => String).insert "k" "v", []⟩
          10 "Elm St" "12" "Ana" "Lopez" =
        (Response.Error ("No block " ++ createId "Elm St" "12" ++ " registered"),
          ⟨(∅ : AList fun _ : String => String).insert "k" "v", []⟩) ∧
      Invoke (some ∅) ⟨(∅ : AList fun _ : String => String).insert "k" "v", []⟩ 10
          "registerRenter" ["Elm St", "12", "Ana", "Lopez"] =
        some (Response.Error ("No block " ++ createId "Elm St" "12" ++ " registered"),
          some ∅, ⟨(∅ : AList fun _ : String => String).insert "k" "v", []⟩)) :=
  ⟨by decide, registerNewRenter_unknown_block _ _ 10 "Elm St" "12" "Ana" "Lopez" (by decide)⟩

/-- On every ledger `rentersCount` has one of two answers: the error when the
bytes under the derived id do not decode (so also when none are stored), and
otherwise a count of 0 and an empty block id, whatever the stored bytes list. -/
theorem rentersCount_eq (stub : Stub) (street number : String) :
    rentersCount stub street number =
        (if decodesIntoStruct (stub.GetState (createId street number)) then
          Response.Success "0 renters in  found"
        else Response.Error ("could not retrieve " ++ street ++ " " ++ fmtDString number)) ∧
      (stub.state.lookup (createId street number) = none →
        decodesIntoStruct (stub.GetState (createId street number)) = false) := by
  constructor
  · unfold rentersCount getBlock jsonUnmarshalBlock
    have hzero : fmtDInt Block.zero.renters.length ++ " renters in " ++ Block.zero.id ++
        " found" = "0 renters in  found" := by decide
    cases hdec : decodesIntoStruct (stub.GetState (createId street number))
    · simp [hdec]
    · simp [hdec, hzero]
  · intro hnone
    simp only [Stub.GetState, hnone, Option.getD_none]
    decide

/-- C17 evaluated: with no record under the id `rentersCount` returns the error,
as the claim has it. With a record it reports 0 renters where the stored block
has some: after `newBlock` and the successful registrations of Ana Lopez and
Bob Diaz, and also on a ledger whose record under the id lists two renters by
name. -/
theorem rentersCount_ignores_stored_renters :
    rentersCount Stub.empty "Elm St" "12" =
        Response.Error "could not retrieve Elm St %!d(string=12)" ∧
      (invokeAll (some ∅) Stub.empty
        [(0, "newBlock", ["Elm St", "12", "4"]),
         (10, "registerRenter", ["Elm St", "12", "Ana", "Lopez"]),
         (20, "registerRenter", ["Elm St", "12", "Bob", "Diaz"]),
         (30, "rentersCount", ["Elm St", "12"])]).map (fun out => out.1.drop 1) =
        some [Response.Success "Block Elm St%!d(string=12) has now 1 renters",
          Response.Success "Block Elm St%!d(string=12) has now 1 renters",
          Response.Success "0 renters in  found"] ∧
      rentersCount
          ⟨(∅ : AList fun _ : String => String).insert "Elm St%!d(string=12)"
            ("\x7b\x22id\x22:\x22Elm St%!d(string=12)\x22,\x22renters\x22:[" ++
              "\x7b\x22name\x22:\x22Ana\x22\x7d,\x7b\x22name\x22:\x22Bob\x22\x7d]\x7d"), []⟩
          "Elm St" "12" =
        Response.Success "0 renters in  found" := by
  decide

/-! ## The reserved key -/

/-- The character `%` occurs in every id. -/
theorem percent_mem_createId (street number : String) :
    '%' ∈ (createId street number).data := by
  rw [createId_data]
  simp

/-- No id is the reserved key. -/
theorem createId_ne_blocksIdCache (street number : String) :
    createId street number ≠ "blocksIdCache" := by
  intro h
  have hm := percent_mem_createId street number
  rw [h] at hm
  revert hm
  decide

/-- C18: no id equals the reserved key "blocksIdCache". So the write of a block
record, by `putBlock` in `newBlock` or by `registerNewRenter`, leaves what is
stored under the reserved key as it was, and `getBlock` on an id does not read
the index record. -/
theorem createId_ne_reserved_key (street number : String) :
    createId street number ≠ "blocksIdCache" ∧
      (∀ (stub : Stub) (block : Block),
        (putBlock stub (createId street number) block).1.state.lookup "blocksIdCache" =
          stub.state.lookup "blocksIdCache") ∧
      (∀ (blocks : Blocks) (stub : Stub) (now : Nat) (name surname : String),
        (registerNewRenter blocks stub now street number name surname).2.state.lookup
            "blocksIdCache" = stub.state.lookup "blocksIdCache") ∧
      (∀ stub : Stub, stub.GetState (createId street number) =
        ((stub.state.erase "blocksIdCache").lookup (createId street number)).getD "") := by
  have hne := createId_ne_blocksIdCache street number
  refine ⟨hne, ?_, ?_, ?_⟩
  · intro stub block
    unfold putBlock Stub.PutState
    split
    · rfl
    · exact AList.lookup_insert_ne (Ne.symm hne)
  · intro blocks stub now name surname
    unfold registerNewRenter
    simp only []
    split
    · rfl
    · split
      · rfl
      · unfold Stub.PutState
        split
        · rfl
        · exact AList.lookup_insert_ne (Ne.symm hne)
  · intro stub
    simp [Stub.GetState, AList.lookup_erase_ne hne]

/-! ## Index and ledger -/

/-- Reading `blocks` after an assignment. -/
theorem Blocks.get_set (blocks blocks2 : Blocks) (id key : String) (v : Bool)
    (h : blocks.set id v = some blocks2) :
    blocks2.get key = if key = id then v else blocks.get key := by
  cases blocks with
  | none => simp [Blocks.set] at h
  | some m =>
    simp only [Blocks.set, Option.some.injEq] at h
    subst h
    by_cases hk : key = id
    · subst hk
      simp [Blocks.get, AList.lookup_insert]
    · simp [Blocks.get, hk, AList.lookup_insert_ne hk]

/-- A write on a ledger that refuses none. -/
theorem Stub.PutState_accepting (stub : Stub) (key value : String) (h : stub.refused = []) :
    stub.PutState key value = (⟨stub.state.insert key value, stub.refused⟩, false) := by
  simp [Stub.PutState, h]

/-- Block records after a write under an id which is not the reserved key. -/
theorem hasBlockRecord_insert (stub : Stub) (id value key : String)
    (hid : id ≠ "blocksIdCache") :
    hasBlockRecord ⟨stub.state.insert id value, stub.refused⟩ key =
      if key = id then true else hasBlockRecord stub key := by
  by_cases hk : key = id
  · subst hk
    simp [hasBlockRecord, hid, AList.lookup_insert]
  · simp [hasBlockRecord, hk, AList.lookup_insert_ne hk]

/-- Block records after a write under the reserved key. -/
theorem hasBlockRecord_insert_reserved (stub : Stub) (value key : String) :
    hasBlockRecord ⟨stub.state.insert "blocksIdCache" value, stub.refused⟩ key =
      hasBlockRecord stub key := by
  by_cases hk : key = "blocksIdCache"
  · subst hk
    simp [hasBlockRecord]
  · simp [hasBlockRecord, hk, AList.lookup_insert_ne hk]

/-- `newBlock` keeps index and ledger consistent. -/
theorem newBlock_consistent (blocks : Blocks) (stub : Stub) (street number nOfRooms : String)
    (resp : Response) (blocks2 : Blocks) (stub2 : Stub) (hc : Consistent blocks stub)
    (h : newBlock blocks stub street number nOfRooms = some (resp, blocks2, stub2)) :
    Consistent blocks2 stub2 := by
  obtain ⟨href, hiff⟩ := hc
  unfold newBlock at h
  simp only [] at h
  split at h
  · simp only [Option.some.injEq, Prod.mk.injEq] at h
    obtain ⟨_, hb, hs⟩ := h
    subst hb; subst hs
    exact ⟨href, hiff⟩
  · rename_i hget
    split at h
    · exact absurd h (by simp)
    · rename_i blocks3 hset
      simp only [Option.some.injEq, Prod.mk.injEq] at h
      obtain ⟨_, hb, hs⟩ := h
      subst hb
      have hid := createId_ne_blocksIdCache street number
      rw [putBlock_eq, Stub.PutState_accepting stub _ _ href] at hs
      simp only [] at hs
      rw [Stub.PutState_accepting
        ⟨stub.state.insert (createId street number) jsonEmptyObject, stub.refused⟩ _ _ href]
        at hs
      simp only [] at hs
      subst hs
      refine ⟨href, fun key => ?_⟩
      rw [Blocks.get_set blocks blocks3 _ key true hset]
      have e1 := hasBlockRecord_insert_reserved
        ⟨stub.state.insert (createId street number) jsonEmptyObject, stub.refused⟩
        (jsonMarshalBlocks blocks3) key
      simp only [] at e1
      rw [e1, hasBlockRecord_insert stub _ _ key hid]
      by_cases hk : key = createId street number
      · simp [hk]
      · simp only [hk, if_false]
        exact hiff key

/-- `registerNewRenter` keeps index and ledger consistent. -/
theorem registerNewRenter_consistent (blocks : Blocks) (stub : Stub) (now : Nat)
    (street number name surname : String) (hc : Consistent blocks stub) :
    Consistent blocks (registerNewRenter blocks stub now street number name surname).2 := by
  obtain ⟨href, hiff⟩ := hc
  unfold registerNewRenter
  simp only []
  split
  · exact ⟨href, hiff⟩
  · rename_i hget
    split
    · exact ⟨href, hiff⟩
    · rw [Stub.PutState_accepting stub _ _ href]
      simp only [Bool.false_eq_true, if_false]
      refine ⟨href, fun key => ?_⟩
      rw [hasBlockRecord_insert stub _ _ key (createId_ne_blocksIdCache street number)]
      by_cases hk : key = createId street number
      · simp only [hk, if_true, iff_true]
        simpa using hget
      · simp only [hk, if_false]
        exact hiff key

/-- Every `Invoke` that returns keeps index and ledger consistent. -/
theorem Invoke_consistent (blocks : Blocks) (stub : Stub) (now : Nat) (function : String)
    (para : List String) (resp : Response) (blocks2 : Blocks) (stub2 : Stub)
    (hc : Consistent blocks stub)
    (h : Invoke blocks stub now function para = some (resp, blocks2, stub2)) :
    Consistent blocks2 stub2 := by
  unfold Invoke at h
  split_ifs at h
  · simp only [Option.some.injEq, Prod.mk.injEq] at h
    obtain ⟨_, hb, hs⟩ := h
    subst hb; subst hs; exact hc
  · simp only [Option.bind_eq_bind, Option.bind_eq_some, Option.some.injEq,
      Prod.mk.injEq] at h
    obtain ⟨_, _, _, _, _, _, _, hb, hs⟩ := h
    subst hb; subst hs; exact hc
  · simp only [Option.some.injEq, Prod.mk.injEq] at h
    obtain ⟨_, hb, hs⟩ := h
    subst hb; subst hs; exact hc
  · simp only [Option.bind_eq_bind, Option.bind_eq_some, Option.some.injEq,
      Prod.mk.injEq] at h
    obtain ⟨p0, _, p1, _, p2, _, p3, _, _, hb, hs⟩ := h
    subst hb; subst hs
    exact registerNewRenter_consistent blocks stub now p0 p1 p2 p3 hc
  · simp only [Option.bind_eq_bind, Option.bind_eq_some] at h
    obtain ⟨p0, _, p1, _, p2, _, hn⟩ := h
    exact newBlock_consistent blocks stub p0 p1 p2 resp blocks2 stub2 hc hn
  · simp only [Option.some.injEq, Prod.mk.injEq] at h
    obtain ⟨_, hb, hs⟩ := h
    subst hb; subst hs; exact hc
  · simp only [Option.some.injEq, Prod.mk.injEq] at h
    obtain ⟨_, hb, hs⟩ := h
    subst hb; subst hs; exact hc
  · simp only [Option.bind_eq_bind, Option.bind_eq_some, Option.some.injEq,
      Prod.mk.injEq] at h
    obtain ⟨_, _, _, _, _, hb, hs⟩ := h
    subst hb; subst hs; exact hc
  · simp only [Option.some.injEq, Prod.mk.injEq] at h
    obtain ⟨_, hb, hs⟩ := h
    subst hb; subst hs; exact hc
  · simp only [Option.some.injEq, Prod.mk.injEq] at h
    obtain ⟨_, hb, hs⟩ := h
    subst hb; subst hs; exact hc

/-- Every sequence of transactions that returns keeps index and ledger
consistent. -/
theorem invokeAll_consistent (calls : List (Nat × String × List String)) :
    ∀ (blocks : Blocks) (stub : Stub) (resps : List Response) (blocks2 : Blocks)
      (stub2 : Stub), Consistent blocks stub →
      invokeAll blocks stub calls = some (resps, blocks2, stub2) → Consistent blocks2 stub2 := by
  induction calls with
  | nil =>
    intro blocks stub resps blocks2 stub2 hc h
    simp only [invokeAll, Option.some.injEq, Prod.mk.injEq] at h
    obtain ⟨_, hb, hs⟩ := h
    subst hb; subst hs; exact hc
  | cons call rest ih =>
    intro blocks stub resps blocks2 stub2 hc h
    obtain ⟨now, function, para⟩ := call
    simp only [invokeAll] at h
    split at h
    · exact absurd h (by simp)
    · rename_i resp blocks3 stub3 hinv
      simp only [Option.map_eq_some', Prod.mk.injEq] at h
      obtain ⟨⟨resps3, blocks4, stub4⟩, hrest, _, hout⟩ := h
      simp only [Prod.mk.injEq] at hout
      obtain ⟨hb, hs⟩ := hout
      subst hb; subst hs
      exact ih blocks3 stub3 resps3 blocks4 stub4
        (Invoke_consistent blocks stub now function para resp blocks3 stub3 hc hinv) hrest

/-- C13: in every state reached from `Init` on the empty ledger, which refuses no
write, by a sequence of `Invoke` calls, the index marks a key exactly when a
block record is stored in the ledger under that key. -/
theorem index_ledger_consistent (calls : List (Nat × String × List String))
    (resps : List Response) (blocks : Blocks) (stub : Stub)
    (h : invokeAll (Init none Stub.empty).2.1 (Init none Stub.empty).2.2 calls =
      some (resps, blocks, stub)) :
    ∀ key : String, blocks.get key = true ↔ hasBlockRecord stub key = true := by
  have h0 : Consistent (Init none Stub.empty).2.1 (Init none Stub.empty).2.2 := by
    refine ⟨rfl, fun key => ?_⟩
    simp [Init, Blocks.get, hasBlockRecord, Stub.empty]
  exact (invokeAll_consistent calls _ _ resps blocks stub h0 h).2

/-- After `newBlock` and one `registerRenter` from `Init` on the empty ledger,
the index marks the id of the block, and the block record is the only record
besides the index record. -/
theorem index_ledger_consistent_witness :
    invokeAll (Init none Stub.empty).2.1 (Init none Stub.empty).2.2
        [(0, "newBlock", ["Elm St", "12", "4"]),
         (10, "registerRenter", ["Elm St", "12", "Ana", "Lopez"])] =
      some ([Response.Success "Successfully created block Elm St%!d(string=12).",
          Response.Success "Block Elm St%!d(string=12) has now 1 renters"],
        some ((∅ : GoMap).insert "Elm St%!d(string=12)" true),
        ⟨(((∅ : AList fun _ : String => String).insert "Elm St%!d(string=12)"
            "\x7b\x7d").insert "blocksIdCache"
            "\x7b\x22Elm St%!d(string=12)\x22:true\x7d").insert "Elm St%!d(string=12)"
            "\x7b\x7d", []⟩) ∧
      ∀ key : String,
        Blocks.get (some ((∅ : GoMap).insert "Elm St%!d(string=12)" true)) key = true ↔
          hasBlockRecord
            ⟨(((∅ : AList fun _ : String => String).insert "Elm St%!d(string=12)"
              "\x7b\x7d").insert "blocksIdCache"
              "\x7b\x22Elm St%!d(string=12)\x22:true\x7d").insert "Elm St%!d(string=12)"
              "\x7b\x7d", []⟩ key = true :=
  ⟨rfl, index_ledger_consistent
    [(0, "newBlock", ["Elm St", "12", "4"]),
     (10, "registerRenter", ["Elm St", "12", "Ana", "Lopez"])] _ _ _ rfl⟩

/-! ## Restart -/

/-- C12, as stated, fails: after `newBlock("Elm St", "12", "4")` the count is 1
and the index record on the ledger lists the id; after a restart (`Init` on the
nil map and the same ledger) the index in memory is empty although the record
on the ledger still lists the id, the count is 0, and `queryRenter` and
`registerNewRenter` no longer find the block. -/
theorem restart_loses_index :
    (invokeAll (some ∅) Stub.empty
        [(0, "newBlock", ["Elm St", "12", "4"]),
         (1, "blocksCount", [])]).map
        (fun out => (out.1, jsonMarshalBlocks (Init none out.2.2).2.1,
          (Init none out.2.2).2.2.GetState "blocksIdCache",
          blocksCount (Init none out.2.2).2.1,
          queryRenter (Init none out.2.2).2.1 (Init none out.2.2).2.2 "Elm St" "12" "Ana",
          (registerNewRenter (Init none out.2.2).2.1 (Init none out.2.2).2.2 5
            "Elm St" "12" "Ana" "Lopez").1)) =
      some ([Response.Success "Successfully created block Elm St%!d(string=12).",
          Response.Success "1 blocks found"],
        "\x7b\x7d", "\x7b\x22Elm St%!d(string=12)\x22:true\x7d",
        Response.Success "0 blocks found",
        Response.Error "No block Elm St%!d(string=12) registered",
        Response.Error "No block Elm St%!d(string=12) registered") := by
  decide

/-- C12, amended: `Init` leaves the ledger, and with it the index record under
"blocksIdCache", as it was and does not read it. The index after `Init` is the
empty map whatever the ledger holds: `blocksCount` reports 0, and `queryRenter`
and `registerNewRenter` answer "No block ... registered" for every block. -/
theorem Init_resets_index (blocks : Blocks) (stub : Stub) :
    (Init blocks stub).2.2 = stub ∧ (Init blocks stub).2.1 = some ∅ ∧
      blocksCount (Init blocks stub).2.1 = Response.Success "0 blocks found" ∧
      ∀ (now : Nat) (street number name surname : String),
        queryRenter (Init blocks stub).2.1 (Init blocks stub).2.2 street number name =
            Response.Error ("No block " ++ createId street number ++ " registered") ∧
          registerNewRenter (Init blocks stub).2.1 (Init blocks stub).2.2 now
              street number name surname =
            (Response.Error ("No block " ++ createId street number ++ " registered"), stub) := by
  have hcount : blocksCount (some ∅) = Response.Success "0 blocks found" := by decide
  refine ⟨rfl, rfl, hcount, ?_⟩
  intro now street number name surname
  have hget : Blocks.get (some ∅) (createId street number) = false := by
    simp [Blocks.get]
  constructor
  · simp [Init, queryRenter, hget]
  · simp [Init, registerNewRenter, hget]

/-! ## Queries and frame -/

/-- C16 evaluated: after `newBlock` and successful registrations of Ana Lopez
and Bob Diaz in the block, `queryRenter` answers "Could not find renter ..." for
"Ana" and for "Bob", as it does for "Eve", who was never registered. -/
theorem queryRenter_registered_names :
    (invokeAll (some ∅) Stub.empty
        [(0, "newBlock", ["Elm St", "12", "4"]),
         (10, "registerRenter", ["Elm St", "12", "Ana", "Lopez"]),
         (20, "registerRenter", ["Elm St", "12", "Bob", "Diaz"]),
         (30, "queryRenter", ["Elm St", "12", "Ana"]),
         (31, "queryRenter", ["Elm St", "12", "Bob"]),
         (32, "queryRenter", ["Elm St", "12", "Eve"])]).map (fun out => out.1.drop 3) =
      some [Response.Error "Could not find renter Ana in block Elm St%!d(string=12)",
        Response.Error "Could not find renter Bob in block Elm St%!d(string=12)",
        Response.Error "Could not find renter Eve in block Elm St%!d(string=12)"] := by
  decide

/-- C19: through `Invoke`, `registerRenter` returns `blocks` as it was, and the
ledger it returns stores under every key other than the derived id what was
stored before and refuses the same writes; `queryRenter`, `rentersCount`,
`blocksCount` and `findEmptyBlock` return `blocks` and the ledger as they were. -/
theorem operations_frame (blocks : Blocks) (stub : Stub) (now : Nat)
    (street number name surname key : String) (para : List String)
    (hkey : key ≠ createId street number) :
    Invoke blocks stub now "registerRenter" [street, number, name, surname] =
        some ((registerNewRenter blocks stub now street number name surname).1, blocks,
          (registerNewRenter blocks stub now street number name surname).2) ∧
      (registerNewRenter blocks stub now street number name surname).2.state.lookup key =
        stub.state.lookup key ∧
      (registerNewRenter blocks stub now street number name surname).2.refused =
        stub.refused ∧
      Invoke blocks stub now "queryRenter" [street, number, name] =
        some (queryRenter blocks stub street number name, blocks, stub) ∧
      Invoke blocks stub now "rentersCount" [street, number] =
        some (rentersCount stub street number, blocks, stub) ∧
      Invoke blocks stub now "blocksCount" para = some (blocksCount blocks, blocks, stub) ∧
      Invoke blocks stub now "findEmptyBlock" para =
        some (findEmptyBlock blocks stub, blocks, stub) := by
  refine ⟨by simp [Invoke], ?_, ?_, by simp [Invoke], by simp [Invoke], by simp [Invoke],
    by simp [Invoke]⟩
  · unfold registerNewRenter
    simp only []
    split
    · rfl
    · split
      · rfl
      · unfold Stub.PutState
        split
        · rfl
        · exact AList.lookup_insert_ne hkey
  · unfold registerNewRenter
    simp only []
    split
    · rfl
    · split
      · rfl
      · unfold Stub.PutState
        split <;> rfl

/-- A registration in the block "Elm St" 12 leaves the record of the block
"Oak St" 3 alone. -/
theorem operations_frame_witness :
    createId "Oak St" "3" ≠ createId "Elm St" "12" ∧
      (registerNewRenter (some ((∅ : GoMap).insert "Elm St%!d(string=12)" true))
          ⟨(∅ : AList fun _ : String => String).insert "Elm St%!d(string=12)" "\x7b\x7d", []⟩
          10 "Elm St" "12" "Ana" "Lopez").2.state.lookup (createId "Oak St" "3") =
        (⟨(∅ : AList fun _ : String => String).insert "Elm St%!d(string=12)" "\x7b\x7d",
          []⟩ : Stub).state.lookup (createId "Oak St" "3") :=
  ⟨by decide,
    (operations_frame (some ((∅ : GoMap).insert "Elm St%!d(string=12)" true))
      ⟨(∅ : AList fun _ : String => String).insert "Elm St%!d(string=12)" "\x7b\x7d", []⟩
      10 "Elm St" "12" "Ana" "Lopez" (createId "Oak St" "3") [] (by decide)).2.1⟩

end ApartmentRegister
